import Mathlib

/-!
Shallow embedding of the conversational session controller in
frontend/src/components/Chat.tsx: the per-session message cache built on
localStorage, the send / onPickSlot turn handlers, the slot keyboard
navigation handler, and the render effects that persist messages and
revalidate the slot focus index.

Durable storage (localStorage) is modelled as a partial map from keys to
stored values.  A stored value is either a plain string (used for the
sdr_session_id key), data whose JSON.parse would throw, parsed JSON that is
not an array, or a parsed array of items each carrying optional who / text
fields (a missing or empty field is falsy in the JS truthiness checks).
-/

namespace Chat

/-- A chat message: Msg = { who: user | bot; text: string }. -/
structure Msg where
  who : String
  text : String
  deriving DecidableEq, Repr

/-- A meeting slot: Slot = { id; start; end }, never mutated client-side. -/
structure Slot where
  id : String
  start : String
  stop : String
  deriving DecidableEq, Repr

/-- An element of a stored JSON array, with possibly missing fields. -/
structure StoredItem where
  who : Option String
  text : Option String
  deriving DecidableEq, Repr

/-- A value held by durable storage under one key. -/
inductive StoredVal where
  | str (s : String)
  | corrupt
  | nonArray
  | jsonArray (items : List StoredItem)
  deriving DecidableEq, Repr

/-- localStorage: a partial map from keys to stored values. -/
def Store := String → Option StoredVal

/-- localStorage.setItem. -/
def setItem (st : Store) (key : String) (v : StoredVal) : Store :=
  fun k => if k = key then some v else st k

/-- localStorage.removeItem. -/
def removeItem (st : Store) (key : String) : Store :=
  fun k => if k = key then none else st k

/-- getMessagesCacheKey: the storage key for a session id. -/
def getMessagesCacheKey (sessionId : String) : String :=
  "sdr_messages_" ++ sessionId

/-- JS truthiness of an optional string field: present and non-empty. -/
def truthyStr : Option String → Bool
  | some v => v ≠ ""
  | none => false

/-- The check parsed.every(m => m.who && m.text) on one element. -/
def validItem (m : StoredItem) : Bool :=
  truthyStr m.who && truthyStr m.text

/-- Serialization of a message into a stored array element. -/
def msgToStored (m : Msg) : StoredItem :=
  ⟨some m.who, some m.text⟩

/-- The message a validated stored element denotes. -/
def storedToMsg (m : StoredItem) : Msg :=
  ⟨m.who.getD "", m.text.getD ""⟩

/-- loadMessagesFromCache: returns the parsed array when it is a JSON array
whose every element has truthy who and text, and the empty list otherwise
(absent entry, parse failure, non-array JSON, or any invalid element). -/
def loadMessagesFromCache (st : Store) (sessionId : String) : List Msg :=
  match st (getMessagesCacheKey sessionId) with
  | some (StoredVal.jsonArray parsed) =>
      if parsed.all validItem then parsed.map storedToMsg else []
  | _ => []

/-- saveMessagesToCache: stores messages.slice(-50), the last 50 elements. -/
def saveMessagesToCache (st : Store) (sessionId : String) (messages : List Msg) : Store :=
  setItem st (getMessagesCacheKey sessionId)
    (StoredVal.jsonArray ((messages.drop (messages.length - 50)).map msgToStored))

/-- clearMessagesCache: removes the entry for the session id. -/
def clearMessagesCache (st : Store) (sessionId : String) : Store :=
  removeItem st (getMessagesCacheKey sessionId)

/-- The action object of a server response, all fields optional. -/
structure RespAction where
  type : Option String
  reply : Option String
  slots : Option (List Slot)
  deriving DecidableEq, Repr

/-- A server response to postChat, all fields optional. -/
structure Resp where
  action : Option RespAction
  reply : Option String
  sessionId : Option String
  deriving DecidableEq, Repr

/-- resp?.action?.type. -/
def actionType (r : Resp) : Option String :=
  r.action.bind RespAction.type

/-- resp?.action?.reply. -/
def actionReply (r : Resp) : Option String :=
  r.action.bind RespAction.reply

/-- resp.action.slots read in the OFFER_SLOTS branch. -/
def actionSlots (r : Resp) : Option (List Slot) :=
  r.action.bind RespAction.slots

/-- Outcome of the awaited postChat call. -/
inductive SendResult where
  | success (resp : Resp)
  | failure
  deriving Repr

/-- Outcome of the awaited schedule call. -/
inductive ReserveResult where
  | success (meetingLink : String)
  | failure
  deriving Repr

/-- The component state of Chat: sessionId, messages, input, slots,
loading, focusedSlotIndex, plus the durable store it reads and writes. -/
structure ChatState where
  sessionId : String
  messages : List Msg
  input : String
  slots : Option (List Slot)
  loading : Bool
  focusedSlotIndex : Int
  store : Store

/-- The fixed greeting used when no cached history exists. -/
def greetingText : String :=
  "Olá! Sou seu assistente de pré-vendas. Como posso ajudar?"

/-- The fixed expiry notice used when resp.reply is falsy. -/
def expiredNoticeText : String :=
  "Sua sessão expirou por inatividade. Por favor, recarregue a página para iniciar uma nova conversa."

/-- The fixed transport-failure message appended by the send catch block. -/
def sendFailText : String :=
  "Falha ao processar. Tente novamente."

/-- The fixed retry message appended by the onPickSlot catch block. -/
def pickFailText : String :=
  "Não consegui marcar. Tente outro horário."

/-- JS text.trim(): strip leading and trailing whitespace. -/
def jsTrim (s : String) : String :=
  ⟨((s.data.dropWhile Char.isWhitespace).reverse.dropWhile Char.isWhitespace).reverse⟩

/-- JS a || b on an optional string: a when present and non-empty. -/
def orFalsy (a : Option String) (b : String) : String :=
  match a with
  | some v => if v = "" then b else v
  | none => b

/-- The initial messages state: the cached history if non-empty, else the
fixed greeting. -/
def initMessages (st : Store) (sessionId : String) : List Msg :=
  let cached := loadMessagesFromCache st sessionId
  if cached.length > 0 then cached
  else [⟨"bot", greetingText⟩]

/-- The body of async function send(text), as a state transformer given the
outcome of the awaited postChat call.  The messages variable captured by the
closure is the render-time value, so the session-rotation block reads the
pre-turn log (without the user message appended via the functional update). -/
def send (s : ChatState) (text : String) (result : SendResult) : ChatState :=
  if jsTrim text = "" then s
  else
    let s1 : ChatState :=
      { s with messages := s.messages ++ [⟨"user", text⟩], loading := true }
    match result with
    | SendResult.failure =>
        { s1 with messages := s1.messages ++ [⟨"bot", sendFailText⟩], loading := false }
    | SendResult.success resp =>
        if actionType resp = some "SESSION_EXPIRED" then
          { s1 with
            store := clearMessagesCache s1.store s.sessionId,
            messages := [⟨"bot", orFalsy resp.reply expiredNoticeText⟩],
            slots := none,
            loading := false }
        else
          let reply := ((actionReply resp).or resp.reply).getD "Certo!"
          let s2 : ChatState := { s1 with messages := s1.messages ++ [⟨"bot", reply⟩] }
          let s3 : ChatState :=
            if actionType resp = some "OFFER_SLOTS" then { s2 with slots := actionSlots resp }
            else { s2 with slots := none }
          let s4 : ChatState :=
            match resp.sessionId with
            | some b =>
                if b ≠ "" ∧ b ≠ s.sessionId then
                  let currentMessages := s.messages
                  let st1 := if currentMessages.length > 0
                             then saveMessagesToCache s3.store b currentMessages
                             else s3.store
                  let st2 := clearMessagesCache st1 s.sessionId
                  let st3 := setItem st2 "sdr_session_id" (StoredVal.str b)
                  { s3 with store := st3, sessionId := b }
                else s3
            | none => s3
          { s4 with loading := false }

/-- The body of async function onPickSlot, as a state transformer given the
outcome of the awaited schedule call. -/
def onPickSlot (s : ChatState) (result : ReserveResult) : ChatState :=
  match result with
  | ReserveResult.success link =>
      { s with
        messages := s.messages ++ [⟨"bot", "Reunião marcada! Link: " ++ link⟩],
        slots := none,
        loading := false }
  | ReserveResult.failure =>
      { s with messages := s.messages ++ [⟨"bot", pickFailText⟩], loading := false }

/-- The form submission entry point: the submit button and the input are
disabled while loading or when the input is blank, so submission fires only
otherwise; it clears the input and calls send with its value. -/
def formSubmit (s : ChatState) (result : SendResult) : ChatState :=
  if s.loading || jsTrim s.input = "" then s
  else send { s with input := "" } s.input result

/-- The two focus effects, run after a render: when slots is falsy and the
index is nonnegative, reset it to the sentinel; when slots is a non-empty
list and the index is the sentinel, focus index 0. -/
def applyFocusEffects (slots : Option (List Slot)) (idx : Int) : Int :=
  match slots with
  | none => if 0 ≤ idx then -1 else idx
  | some l => if 0 < l.length ∧ idx = -1 then 0 else idx

/-- The persistence effect, run after every render in which messages or
sessionId changed: saves the current messages under the current session id. -/
def persistEffect (s : ChatState) : ChatState :=
  { s with store := saveMessagesToCache s.store s.sessionId s.messages }

/-- One observable send turn: the send body followed by the render effects. -/
def sendStep (s : ChatState) (text : String) (result : SendResult) : ChatState :=
  let s1 := send s text result
  let s2 := persistEffect s1
  { s2 with focusedSlotIndex := applyFocusEffects s2.slots s2.focusedSlotIndex }

/-- The body of handleSlotKeyDown for a key pressed on the slot button at
the given index: returns the new focused index and the new slot offer.
Tab and unrecognized keys leave the state unchanged; Escape clears the
offer. -/
def handleSlotKeyDown (slots : Option (List Slot)) (focusedIdx : Int)
    (key : String) (index : Int) : Int × Option (List Slot) :=
  match slots with
  | none => (focusedIdx, none)
  | some l =>
      if key = "ArrowDown" then
        (if index < (l.length : Int) - 1 then index + 1 else 0, some l)
      else if key = "ArrowUp" then
        (if index > 0 then index - 1 else (l.length : Int) - 1, some l)
      else if key = "Home" then (0, some l)
      else if key = "End" then ((l.length : Int) - 1, some l)
      else if key = "Escape" then (focusedIdx, none)
      else (focusedIdx, some l)

/-- One observable keyboard step on the slot list: the keydown handler
followed by the focus effects.  The persistence effect does not run here,
since its dependencies (messages, sessionId) are untouched. -/
def keyStep (s : ChatState) (key : String) (index : Int) : ChatState :=
  let r := handleSlotKeyDown s.slots s.focusedSlotIndex key index
  let s1 := { s with focusedSlotIndex := r.1, slots := r.2 }
  { s1 with focusedSlotIndex := applyFocusEffects s1.slots s1.focusedSlotIndex }

/-- The focus validity invariant claimed by the specification. -/
def focusOk (slots : Option (List Slot)) (idx : Int) : Prop :=
  match slots with
  | none => idx = -1
  | some l => idx = -1 ∨ (0 ≤ idx ∧ idx < (l.length : Int))

instance (slots : Option (List Slot)) (idx : Int) : Decidable (focusOk slots idx) := by
  unfold focusOk
  cases slots <;> infer_instance

/-- A store with no entries. -/
def emptyStore : Store := fun _ => none

/-- A sample fresh controller state for session id A. -/
def freshState : ChatState :=
  ⟨"A", [⟨"bot", greetingText⟩], "", none, false, -1, emptyStore⟩

/-- A SESSION_EXPIRED response carrying its reply inside the action object. -/
def expiredResp : Resp :=
  ⟨some ⟨some "SESSION_EXPIRED", some "expirou", none⟩, none, none⟩

/-- A plain response rotating the session to id B. -/
def rotateResp : Resp :=
  ⟨none, some "ok", some "B"⟩

/-- A state that is busy (loading) while a slot offer is still displayed. -/
def busyState : ChatState :=
  ⟨"A", [⟨"bot", greetingText⟩], "", some [⟨"s1", "t0", "t1"⟩], true, 0, emptyStore⟩

/-- Three sample slots offered first. -/
def slotA : Slot := ⟨"a", "t0", "t1"⟩

/-- Second sample slot. -/
def slotB : Slot := ⟨"b", "t2", "t3"⟩

/-- Third sample slot. -/
def slotC : Slot := ⟨"c", "t4", "t5"⟩

/-- Sample slot of the shorter replacement offer. -/
def slotD : Slot := ⟨"d", "t6", "t7"⟩

/-- A response offering the three sample slots. -/
def offer3Resp : Resp :=
  ⟨some ⟨some "OFFER_SLOTS", some "ok", some [slotA, slotB, slotC]⟩, none, none⟩

/-- A response offering only the one replacement slot. -/
def offer1Resp : Resp :=
  ⟨some ⟨some "OFFER_SLOTS", some "ok", some [slotD]⟩, none, none⟩

/-- The state after offering three slots and pressing ArrowDown twice: the
focused index is 2. -/
def focusedThirdState : ChatState :=
  keyStep (keyStep (sendStep freshState "quero agendar" (SendResult.success offer3Resp))
    "ArrowDown" 0) "ArrowDown" 1

/-- Two sample valid messages used by the cache round-trip witness. -/
def sampleMsgs : List Msg := [⟨"user", "oi"⟩, ⟨"bot", "ok"⟩]

/-- A store whose entry for session A has an element with no text field. -/
def badStore : Store :=
  fun k => if k = getMessagesCacheKey "A"
           then some (StoredVal.jsonArray [⟨some "user", none⟩]) else none

lemma storedToMsg_msgToStored (m : Msg) : storedToMsg (msgToStored m) = m := rfl

lemma cacheKey_ne_sessionKey (b : String) : getMessagesCacheKey b ≠ "sdr_session_id" := by
  intro h
  have h2 := congrArg String.data h
  rw [getMessagesCacheKey, String.data_append] at h2
  simp at h2

lemma cacheKey_inj {a b : String} (h : a ≠ b) :
    getMessagesCacheKey a ≠ getMessagesCacheKey b := by
  intro h2
  apply h
  have h3 := congrArg String.data h2
  rw [getMessagesCacheKey, getMessagesCacheKey, String.data_append, String.data_append] at h3
  exact String.ext (List.append_cancel_left h3)

lemma setItem_hit (st : Store) (k : String) (v : StoredVal) : setItem st k v k = some v := by
  unfold setItem
  rw [if_pos rfl]

lemma setItem_miss (st : Store) (k k2 : String) (v : StoredVal) (h : k2 ≠ k) :
    setItem st k v k2 = st k2 := by
  unfold setItem
  rw [if_neg h]

lemma removeItem_hit (st : Store) (k : String) : removeItem st k k = none := by
  unfold removeItem
  rw [if_pos rfl]

lemma removeItem_miss (st : Store) (k k2 : String) (h : k2 ≠ k) : removeItem st k k2 = st k2 := by
  unfold removeItem
  rw [if_neg h]

lemma send_blank (s : ChatState) (text : String) (result : SendResult)
    (h : jsTrim text = "") : send s text result = s := by
  unfold send
  rw [if_pos h]

lemma send_failure_eq (s : ChatState) (text : String) (h : jsTrim text ≠ "") :
    send s text SendResult.failure =
      { s with messages := s.messages ++ [⟨"user", text⟩, ⟨"bot", sendFailText⟩],
               loading := false } := by
  unfold send
  rw [if_neg h]
  show ({ s with
    messages := (s.messages ++ [⟨"user", text⟩]) ++ [⟨"bot", sendFailText⟩],
    loading := false } : ChatState) = _
  rw [List.append_assoc]
  rfl

lemma send_expired_eq (s : ChatState) (text : String) (resp : Resp)
    (h : jsTrim text ≠ "") (he : actionType resp = some "SESSION_EXPIRED") :
    send s text (SendResult.success resp) =
      { s with messages := [⟨"bot", orFalsy resp.reply expiredNoticeText⟩],
               slots := none, loading := false,
               store := clearMessagesCache s.store s.sessionId } := by
  unfold send
  rw [if_neg h]
  dsimp only
  rw [if_pos he]

lemma send_success_messages (s : ChatState) (text : String) (resp : Resp)
    (h : jsTrim text ≠ "") (he : ¬ actionType resp = some "SESSION_EXPIRED") :
    (send s text (SendResult.success resp)).messages =
      s.messages ++ [⟨"user", text⟩, ⟨"bot", ((actionReply resp).or resp.reply).getD "Certo!"⟩] := by
  unfold send
  rw [if_neg h]
  dsimp only
  rw [if_neg he]
  dsimp only
  repeat' split
  all_goals simp [List.append_assoc]

lemma send_rotation_eq (s : ChatState) (text : String) (resp : Resp) (b : String)
    (h : jsTrim text ≠ "") (he : ¬ actionType resp = some "SESSION_EXPIRED")
    (hb : resp.sessionId = some b) (hb1 : b ≠ "") (hb2 : b ≠ s.sessionId) :
    send s text (SendResult.success resp) =
      { s with
        messages := s.messages ++
          [⟨"user", text⟩, ⟨"bot", ((actionReply resp).or resp.reply).getD "Certo!"⟩],
        slots := if actionType resp = some "OFFER_SLOTS" then actionSlots resp else none,
        loading := false,
        sessionId := b,
        store := setItem (clearMessagesCache
            (if s.messages.length > 0 then saveMessagesToCache s.store b s.messages else s.store)
            s.sessionId) "sdr_session_id" (StoredVal.str b) } := by
  unfold send
  rw [if_neg h]
  dsimp only
  rw [if_neg he]
  try dsimp only
  rw [hb]
  repeat' split
  all_goals simp_all [List.append_assoc]

/-- Claim C1 counterexample: for the response with action type
SESSION_EXPIRED and the reply field inside the action object only, the
resulting log carries the fixed expiry notice, not the action reply, and a
subsequent submit still changes the log (it is not rejected). -/
theorem session_expired_counterexample :
    (send freshState "oi" (SendResult.success expiredResp)).messages =
        [⟨"bot", expiredNoticeText⟩] ∧
    (send freshState "oi" (SendResult.success expiredResp)).messages ≠ [⟨"bot", "expirou"⟩] ∧
    (send (send freshState "oi" (SendResult.success expiredResp)) "de novo"
        SendResult.failure).messages ≠
      (send freshState "oi" (SendResult.success expiredResp)).messages := by
  refine ⟨?_, ?_, ?_⟩ <;> decide

/-- Claim C1 (amended): on a SESSION_EXPIRED response the controller clears
the cache entry for the current session id, resets the log to one bot
message whose text is the top-level reply field when present and non-empty
(else the fixed expiry notice; the action-level reply is ignored), discards
the slot offer, resets the loading flag, keeps the session id; there is no
terminal state, so a subsequent submit is processed normally. -/
theorem session_expired_behavior (s : ChatState) (text : String) (resp : Resp)
    (ht : jsTrim text ≠ "") (he : actionType resp = some "SESSION_EXPIRED") :
    (send s text (SendResult.success resp)).messages =
        [⟨"bot", orFalsy resp.reply expiredNoticeText⟩] ∧
    (send s text (SendResult.success resp)).slots = none ∧
    (send s text (SendResult.success resp)).loading = false ∧
    (send s text (SendResult.success resp)).sessionId = s.sessionId ∧
    (send s text (SendResult.success resp)).store (getMessagesCacheKey s.sessionId) = none ∧
    (∀ text2, jsTrim text2 ≠ "" →
      (send (send s text (SendResult.success resp)) text2 SendResult.failure).messages =
        (send s text (SendResult.success resp)).messages ++
          [⟨"user", text2⟩, ⟨"bot", sendFailText⟩]) := by
  rw [send_expired_eq s text resp ht he]
  refine ⟨rfl, rfl, rfl, rfl, ?_, ?_⟩
  · show clearMessagesCache s.store s.sessionId (getMessagesCacheKey s.sessionId) = none
    unfold clearMessagesCache
    exact removeItem_hit _ _
  · intro text2 ht2
    rw [send_failure_eq _ text2 ht2]

/-- Witness for claim C1 at the fresh state and the sample expired
response. -/
theorem session_expired_behavior_witness :
    jsTrim "oi" ≠ "" ∧ actionType expiredResp = some "SESSION_EXPIRED" ∧
    ((send freshState "oi" (SendResult.success expiredResp)).messages =
        [⟨"bot", orFalsy expiredResp.reply expiredNoticeText⟩] ∧
      (send freshState "oi" (SendResult.success expiredResp)).slots = none ∧
      (send freshState "oi" (SendResult.success expiredResp)).loading = false ∧
      (send freshState "oi" (SendResult.success expiredResp)).sessionId = freshState.sessionId ∧
      (send freshState "oi" (SendResult.success expiredResp)).store
        (getMessagesCacheKey freshState.sessionId) = none ∧
      (∀ text2, jsTrim text2 ≠ "" →
        (send (send freshState "oi" (SendResult.success expiredResp)) text2
            SendResult.failure).messages =
          (send freshState "oi" (SendResult.success expiredResp)).messages ++
            [⟨"user", text2⟩, ⟨"bot", sendFailText⟩])) :=
  ⟨by decide, by decide,
   session_expired_behavior freshState "oi" expiredResp (by decide) (by decide)⟩

/-- Claim C2 counterexample: while the loading flag is true a pickSlot call
is not rejected: it appends its outcome message, so it has an effect. -/
theorem pickSlot_busy_counterexample :
    busyState.loading = true ∧
    (onPickSlot busyState ReserveResult.failure).messages =
      busyState.messages ++ [⟨"bot", pickFailText⟩] ∧
    (onPickSlot busyState ReserveResult.failure).messages ≠ busyState.messages := by
  refine ⟨rfl, rfl, ?_⟩
  decide

/-- Claim C2 (amended): while the controller is busy the form submission
entry point is disabled and has no effect, but onPickSlot performs no busy
check, so a pickSlot call while busy proceeds and mutates the log (a second
network call can be outstanding). -/
theorem busy_gating (s : ChatState) (result : SendResult) (result2 : ReserveResult)
    (h : s.loading = true) :
    formSubmit s result = s ∧ (onPickSlot s result2).messages ≠ s.messages := by
  constructor
  · unfold formSubmit
    rw [h]
    simp
  · cases result2 <;>
      · dsimp only [onPickSlot]
        intro heq
        have hlen := congrArg List.length heq
        simp [List.length_append] at hlen

/-- Witness for claim C2 at the busy sample state. -/
theorem busy_gating_witness :
    busyState.loading = true ∧
    (formSubmit busyState SendResult.failure = busyState ∧
      (onPickSlot busyState ReserveResult.failure).messages ≠ busyState.messages) :=
  ⟨rfl, busy_gating busyState SendResult.failure ReserveResult.failure rfl⟩

/-- Claim C3 counterexample: on rotation to session B, the value persisted
under B before submit returns is the stale pre-turn history (here the lone
greeting), not the updated log with the user and bot messages of the turn. -/
theorem rotation_stale_counterexample :
    (send freshState "oi" (SendResult.success rotateResp)).store (getMessagesCacheKey "B") =
      some (StoredVal.jsonArray [⟨some "bot", some greetingText⟩]) ∧
    (send freshState "oi" (SendResult.success rotateResp)).store (getMessagesCacheKey "B") ≠
      some (StoredVal.jsonArray
        [⟨some "bot", some greetingText⟩, ⟨some "user", some "oi"⟩, ⟨some "bot", some "ok"⟩]) := by
  constructor <;> decide

/-- Claim C3 (amended): on a non-expired response whose session id B differs
from the current id A, before submit returns the controller persists the
stale pre-turn history H (not the just-updated log) under B, deletes the
entry under A, and adopts B as the active id; the fully updated log
H ++ [user message, bot message] reaches cache(B) only through the
post-render persistence effect, after submit has returned. -/
theorem rotation_behavior (s : ChatState) (text : String) (resp : Resp) (b : String)
    (ht : jsTrim text ≠ "") (he : ¬ actionType resp = some "SESSION_EXPIRED")
    (hb : resp.sessionId = some b) (hb1 : b ≠ "") (hb2 : b ≠ s.sessionId)
    (hm : s.messages.length > 0) :
    (send s text (SendResult.success resp)).sessionId = b ∧
    (send s text (SendResult.success resp)).messages =
      s.messages ++ [⟨"user", text⟩, ⟨"bot", ((actionReply resp).or resp.reply).getD "Certo!"⟩] ∧
    (send s text (SendResult.success resp)).store (getMessagesCacheKey b) =
      some (StoredVal.jsonArray ((s.messages.drop (s.messages.length - 50)).map msgToStored)) ∧
    (send s text (SendResult.success resp)).store (getMessagesCacheKey s.sessionId) = none ∧
    (persistEffect (send s text (SendResult.success resp))).store (getMessagesCacheKey b) =
      some (StoredVal.jsonArray ((((send s text (SendResult.success resp)).messages).drop
        (((send s text (SendResult.success resp)).messages).length - 50)).map msgToStored)) := by
  rw [send_rotation_eq s text resp b ht he hb hb1 hb2]
  refine ⟨rfl, rfl, ?_, ?_, ?_⟩
  · dsimp only
    rw [if_pos hm]
    rw [setItem_miss _ _ _ _ (cacheKey_ne_sessionKey b)]
    unfold clearMessagesCache
    rw [removeItem_miss _ _ _ (cacheKey_inj hb2)]
    unfold saveMessagesToCache
    exact setItem_hit _ _ _
  · dsimp only
    rw [setItem_miss _ _ _ _ (cacheKey_ne_sessionKey s.sessionId)]
    unfold clearMessagesCache
    exact removeItem_hit _ _
  · unfold persistEffect
    dsimp only
    unfold saveMessagesToCache
    exact setItem_hit _ _ _

/-- Witness for claim C3 at the fresh state and the sample rotation
response. -/
theorem rotation_behavior_witness :
    jsTrim "oi" ≠ "" ∧ (¬ actionType rotateResp = some "SESSION_EXPIRED") ∧
    rotateResp.sessionId = some "B" ∧ "B" ≠ "" ∧ "B" ≠ freshState.sessionId ∧
    freshState.messages.length > 0 ∧
    ((send freshState "oi" (SendResult.success rotateResp)).sessionId = "B" ∧
      (send freshState "oi" (SendResult.success rotateResp)).messages =
        freshState.messages ++
          [⟨"user", "oi"⟩, ⟨"bot", ((actionReply rotateResp).or rotateResp.reply).getD "Certo!"⟩] ∧
      (send freshState "oi" (SendResult.success rotateResp)).store (getMessagesCacheKey "B") =
        some (StoredVal.jsonArray
          ((freshState.messages.drop (freshState.messages.length - 50)).map msgToStored)) ∧
      (send freshState "oi" (SendResult.success rotateResp)).store
        (getMessagesCacheKey freshState.sessionId) = none ∧
      (persistEffect (send freshState "oi" (SendResult.success rotateResp))).store
          (getMessagesCacheKey "B") =
        some (StoredVal.jsonArray
          ((((send freshState "oi" (SendResult.success rotateResp)).messages).drop
            (((send freshState "oi" (SendResult.success rotateResp)).messages).length - 50)).map
            msgToStored))) :=
  ⟨by decide, by decide, by decide, by decide, by decide, by decide,
   rotation_behavior freshState "oi" rotateResp "B" (by decide) (by decide) (by decide)
     (by decide) (by decide) (by decide)⟩

/-- Claim C4 counterexample: from a reachable state with a three-slot offer
and focused index 2, a send turn replacing the offer by a one-slot offer
leaves the focused index at 2, past the new bounds, even after the focus
effects run, so the invariant fails at an observable point. -/
theorem focus_out_of_bounds_counterexample :
    focusedThirdState.slots = some [slotA, slotB, slotC] ∧
    focusedThirdState.focusedSlotIndex = 2 ∧
    focusOk focusedThirdState.slots focusedThirdState.focusedSlotIndex ∧
    (sendStep focusedThirdState "mais horarios" (SendResult.success offer1Resp)).slots =
      some [slotD] ∧
    (sendStep focusedThirdState "mais horarios" (SendResult.success offer1Resp)).focusedSlotIndex
      = 2 ∧
    ¬ focusOk (sendStep focusedThirdState "mais horarios" (SendResult.success offer1Resp)).slots
        (sendStep focusedThirdState "mais horarios"
          (SendResult.success offer1Resp)).focusedSlotIndex := by
  refine ⟨?_, ?_, ?_, ?_, ?_, ?_⟩ <;> decide

/-- Claim C4 (amended): after an offer mutation followed by the focus
effects, the focus invariant holds whenever the new offer is absent, or no
slot was focused before, or the new offer is at least as long as the
previous one; replacing an offer with a shorter one while a later slot is
focused can leave the index out of bounds. -/
theorem focus_invariant_preserved (slots0 slots1 : Option (List Slot)) (idx : Int)
    (h0 : focusOk slots0 idx)
    (h : slots1 = none ∨ idx = -1 ∨
         (∃ l0 l1, slots0 = some l0 ∧ slots1 = some l1 ∧ l0.length ≤ l1.length)) :
    focusOk slots1 (applyFocusEffects slots1 idx) := by
  have hidx : idx = -1 ∨ 0 ≤ idx := by
    rcases slots0 with _ | l0 <;> simp only [focusOk] at h0
    · exact Or.inl h0
    · rcases h0 with h0 | h0
      · exact Or.inl h0
      · exact Or.inr h0.1
  rcases h with h | h | ⟨l0, l1, h1, h2, hle⟩
  · subst h
    simp only [applyFocusEffects, focusOk]
    by_cases hp : 0 ≤ idx
    · rw [if_pos hp]
    · rw [if_neg hp]
      rcases hidx with hidx | hidx <;> omega
  · subst h
    rcases slots1 with _ | l1
    · simp [applyFocusEffects, focusOk]
    · simp only [applyFocusEffects, focusOk]
      by_cases hl : 0 < l1.length
      · rw [if_pos (And.intro hl (by simp))]
        right
        exact ⟨le_refl 0, by exact_mod_cast hl⟩
      · rw [if_neg fun hcon => hl hcon.1]
        left
        rfl
  · subst h1
    subst h2
    simp only [focusOk] at h0
    simp only [applyFocusEffects, focusOk]
    rcases h0 with h0 | h0
    · subst h0
      by_cases hl : 0 < l1.length
      · rw [if_pos (And.intro hl (by simp))]
        right
        exact ⟨le_refl 0, by exact_mod_cast hl⟩
      · rw [if_neg fun hcon => hl hcon.1]
        left
        rfl
    · rw [if_neg fun hcon => by omega]
      right
      refine ⟨h0.1, ?_⟩
      have h3 := h0.2
      omega

/-- Witness for claim C4: clearing a one-slot offer resets the focus to the
sentinel. -/
theorem focus_invariant_preserved_witness :
    focusOk (some [slotA]) 0 ∧
    ((none : Option (List Slot)) = none ∨ (0 : Int) = -1 ∨
      (∃ l0 l1, (some [slotA] : Option (List Slot)) = some l0 ∧
        (none : Option (List Slot)) = some l1 ∧ l0.length ≤ l1.length)) ∧
    focusOk (none : Option (List Slot)) (applyFocusEffects none 0) :=
  ⟨by decide, Or.inl rfl,
   focus_invariant_preserved (some [slotA]) none 0 (by decide) (Or.inl rfl)⟩

/-- Claim C5: saving a list of messages with non-empty who and text and then
loading the same session id returns exactly the last min(length, 50)
elements with fields and order preserved. -/
theorem save_load_roundtrip (st : Store) (sid : String) (M : List Msg)
    (h : ∀ m ∈ M, m.who ≠ "" ∧ m.text ≠ "") :
    loadMessagesFromCache (saveMessagesToCache st sid M) sid = M.drop (M.length - 50) ∧
    (M.drop (M.length - 50)).length = min M.length 50 := by
  constructor
  · unfold loadMessagesFromCache saveMessagesToCache setItem
    try dsimp only
    rw [if_pos rfl]
    have hall : ((M.drop (M.length - 50)).map msgToStored).all validItem = true := by
      rw [List.all_eq_true]
      intro x hx
      rw [List.mem_map] at hx
      obtain ⟨m, hm, rfl⟩ := hx
      have hv := h m (List.mem_of_mem_drop hm)
      simp [validItem, msgToStored, truthyStr, hv.1, hv.2]
    try dsimp only
    rw [if_pos hall, List.map_map]
    have hcomp : storedToMsg ∘ msgToStored = fun m => m := funext storedToMsg_msgToStored
    rw [hcomp]
    exact List.map_id _
  · rw [List.length_drop]
    omega

/-- Witness for claim C5 on a two-message history. -/
theorem save_load_roundtrip_witness :
    (∀ m ∈ sampleMsgs, m.who ≠ "" ∧ m.text ≠ "") ∧
    (loadMessagesFromCache (saveMessagesToCache emptyStore "A" sampleMsgs) "A" =
        sampleMsgs.drop (sampleMsgs.length - 50) ∧
      (sampleMsgs.drop (sampleMsgs.length - 50)).length = min sampleMsgs.length 50) :=
  ⟨by decide, save_load_roundtrip emptyStore "A" sampleMsgs (by decide)⟩

/-- Claim C6: load returns the empty sequence when the stored entry is
absent, unreadable, not an array, or contains any element with a missing or
empty who or text; the whole entry is invalidated. -/
theorem load_invalid_empty (st : Store) (sid : String)
    (h : st (getMessagesCacheKey sid) = none ∨
         st (getMessagesCacheKey sid) = some StoredVal.corrupt ∨
         st (getMessagesCacheKey sid) = some StoredVal.nonArray ∨
         (∃ v, st (getMessagesCacheKey sid) = some (StoredVal.str v)) ∨
         (∃ items, st (getMessagesCacheKey sid) = some (StoredVal.jsonArray items) ∧
            ∃ m ∈ items, validItem m = false)) :
    loadMessagesFromCache st sid = [] := by
  unfold loadMessagesFromCache
  rcases h with h | h | h | ⟨v, h⟩ | ⟨items, h, m, hm, hbad⟩ <;> (rw [h]; try rfl)
  dsimp only
  have : ¬ items.all validItem = true := by
    rw [List.all_eq_true]
    intro hall
    have hc := hall m hm
    rw [hbad] at hc
    exact Bool.false_ne_true hc
  rw [if_neg this]

/-- Witness for claim C6 on a store whose entry for session A has one
element lacking its text field. -/
theorem load_invalid_empty_witness :
    (badStore (getMessagesCacheKey "A") = none ∨
     badStore (getMessagesCacheKey "A") = some StoredVal.corrupt ∨
     badStore (getMessagesCacheKey "A") = some StoredVal.nonArray ∨
     (∃ v, badStore (getMessagesCacheKey "A") = some (StoredVal.str v)) ∨
     (∃ items, badStore (getMessagesCacheKey "A") = some (StoredVal.jsonArray items) ∧
        ∃ m ∈ items, validItem m = false)) ∧
    loadMessagesFromCache badStore "A" = [] :=
  ⟨Or.inr (Or.inr (Or.inr (Or.inr
      ⟨[⟨some "user", none⟩], by decide, ⟨⟨some "user", none⟩, by decide, by decide⟩⟩))),
   load_invalid_empty badStore "A" (Or.inr (Or.inr (Or.inr (Or.inr
      ⟨[⟨some "user", none⟩], by decide, ⟨⟨some "user", none⟩, by decide, by decide⟩⟩))))⟩

/-- Claim C7: a transport failure during send appends exactly the user
message of the turn followed by the fixed failure bot message, resets the
loading flag, and leaves every other state component (slots, session id,
store, input, focus) unchanged. -/
theorem send_transport_failure (s : ChatState) (text : String) (h : jsTrim text ≠ "") :
    send s text SendResult.failure =
      { s with messages := s.messages ++ [⟨"user", text⟩, ⟨"bot", sendFailText⟩],
               loading := false } :=
  send_failure_eq s text h

/-- Witness for claim C7 at the fresh state. -/
theorem send_transport_failure_witness :
    jsTrim "oi" ≠ "" ∧
    send freshState "oi" SendResult.failure =
      { freshState with
        messages := freshState.messages ++ [⟨"user", "oi"⟩, ⟨"bot", sendFailText⟩],
        loading := false } :=
  ⟨by decide, send_transport_failure freshState "oi" (by decide)⟩

/-- Claim C8: when the reserve call fails, onPickSlot appends exactly the
fixed retry bot message and leaves every other state component unchanged, in
particular the offered slot list, so the user may retry. -/
theorem pickSlot_failure_frame (s : ChatState) (h : s.loading = false) :
    onPickSlot s ReserveResult.failure =
      { s with messages := s.messages ++ [⟨"bot", pickFailText⟩] } := by
  obtain ⟨sid, msgs, inp, sl, ld, fi, st⟩ := s
  dsimp only at h
  subst h
  rfl

/-- Witness for claim C8 at the fresh state. -/
theorem pickSlot_failure_frame_witness :
    freshState.loading = false ∧
    onPickSlot freshState ReserveResult.failure =
      { freshState with messages := freshState.messages ++ [⟨"bot", pickFailText⟩] } :=
  ⟨rfl, pickSlot_failure_frame freshState rfl⟩

/-- Claim C9: slot focus navigation is circular: for a valid index i into a
non-empty offer of length N, ArrowDown yields (i + 1) mod N, ArrowUp yields
(i - 1 + N) mod N, Home yields 0 and End yields N - 1. -/
theorem slot_navigation_circular (l : List Slot) (fi i : Int)
    (hi : 0 ≤ i) (hil : i < (l.length : Int)) :
    (handleSlotKeyDown (some l) fi "ArrowDown" i).1 = (i + 1) % (l.length : Int) ∧
    (handleSlotKeyDown (some l) fi "ArrowUp" i).1 = (i - 1 + l.length) % (l.length : Int) ∧
    (handleSlotKeyDown (some l) fi "Home" i).1 = 0 ∧
    (handleSlotKeyDown (some l) fi "End" i).1 = (l.length : Int) - 1 := by
  unfold handleSlotKeyDown
  refine ⟨?_, ?_, ?_, ?_⟩
  · dsimp only
    rw [if_pos rfl]
    by_cases hc : i < (l.length : Int) - 1
    · rw [if_pos hc, Int.emod_eq_of_lt (by omega) (by omega)]
    · rw [if_neg hc]
      have h2 : i + 1 = (l.length : Int) := by omega
      rw [h2, Int.emod_self]
  · dsimp only
    rw [if_neg (by decide), if_pos rfl]
    by_cases hp : i > 0
    · rw [if_pos hp]
      have hmod : (i - 1 + (l.length : Int)) % (l.length : Int) =
          (i - 1) % (l.length : Int) := by
        have h3 := Int.add_mul_emod_self_left (a := i - 1) (b := (l.length : Int)) (c := 1)
        rw [mul_one] at h3
        exact h3
      rw [hmod, Int.emod_eq_of_lt (by omega) (by omega)]
    · rw [if_neg hp]
      have h0 : i = 0 := by omega
      subst h0
      have h3 : (0 : Int) - 1 + (l.length : Int) = (l.length : Int) - 1 := by ring
      rw [h3, Int.emod_eq_of_lt (by omega) (by omega)]
  · dsimp only
    rw [if_neg (by decide), if_neg (by decide), if_pos rfl]
  · dsimp only
    rw [if_neg (by decide), if_neg (by decide), if_neg (by decide), if_pos rfl]

/-- Witness for claim C9 on a two-slot offer at index 1. -/
theorem slot_navigation_circular_witness :
    (0 : Int) ≤ 1 ∧ (1 : Int) < (([slotA, slotB] : List Slot).length : Int) ∧
    ((handleSlotKeyDown (some [slotA, slotB]) 0 "ArrowDown" 1).1 =
        (1 + 1) % (([slotA, slotB] : List Slot).length : Int) ∧
      (handleSlotKeyDown (some [slotA, slotB]) 0 "ArrowUp" 1).1 =
        (1 - 1 + ([slotA, slotB] : List Slot).length) %
          (([slotA, slotB] : List Slot).length : Int) ∧
      (handleSlotKeyDown (some [slotA, slotB]) 0 "Home" 1).1 = 0 ∧
      (handleSlotKeyDown (some [slotA, slotB]) 0 "End" 1).1 =
        (([slotA, slotB] : List Slot).length : Int) - 1) :=
  ⟨by decide, by decide, slot_navigation_circular [slotA, slotB] 0 1 (by decide) (by decide)⟩

/-- Claim C10: the message log is never empty: initialization yields either
the non-empty cached history or the greeting, and both send (any outcome)
and onPickSlot preserve non-emptiness. -/
theorem log_never_empty :
    (∀ st sid, initMessages st sid ≠ []) ∧
    (∀ s text result, s.messages ≠ [] → (send s text result).messages ≠ []) ∧
    (∀ s result, s.messages ≠ [] → (onPickSlot s result).messages ≠ []) := by
  refine ⟨?_, ?_, ?_⟩
  · intro st sid
    unfold initMessages
    dsimp only
    by_cases hlen : (loadMessagesFromCache st sid).length > 0
    · rw [if_pos hlen]
      exact List.length_pos.mp hlen
    · rw [if_neg hlen]
      simp
  · intro s text result hm
    by_cases hb : jsTrim text = ""
    · rw [send_blank s text result hb]
      exact hm
    · cases result with
      | failure =>
          rw [send_failure_eq s text hb]
          simp
      | success resp =>
          by_cases he : actionType resp = some "SESSION_EXPIRED"
          · rw [send_expired_eq s text resp hb he]
            simp
          · rw [send_success_messages s text resp hb he]
            simp
  · intro s result hm
    cases result <;> simp [onPickSlot]

/-- Witness for claim C10 at the fresh state. -/
theorem log_never_empty_witness :
    initMessages emptyStore "A" ≠ [] ∧
    (freshState.messages ≠ [] ∧ (send freshState "oi" SendResult.failure).messages ≠ []) ∧
    (freshState.messages ≠ [] ∧ (onPickSlot freshState ReserveResult.failure).messages ≠ []) :=
  ⟨log_never_empty.1 emptyStore "A",
   ⟨by decide, log_never_empty.2.1 freshState "oi" SendResult.failure (by decide)⟩,
   ⟨by decide, log_never_empty.2.2 freshState ReserveResult.failure (by decide)⟩⟩

end Chat
